import Mathlib

/-!
Verification of the OCR invoice-scanner pipeline (`src/app.py`) against its
natural-language specification.

The program is a small Streamlit app.  Its computational core is:

* `extract_invoice_numbers(text)` (app.py lines 38-79): cleans the OCR text,
  scans it with three labeled regular expressions (13-14 digit runs after
  "Invoice No/Number/Sr. No", "Document No", "Moglix Invoice Sr. No"),
  falls back to standalone 13-14 digit runs bounded by word boundaries when
  no labeled match was found, and finally truncates every match longer than
  13 digits to its trailing 13 digits.
* `compare_invoice_numbers(text1, text2)` (app.py lines 81-106): extracts
  candidates from both texts, stores them in `debug_numbers1/2`, collects
  suffix-10 matches and exact matches, and returns
  `list(set(exact + special))` or `None` when empty.
* session handling: `reset_captured_images` (lines 28-32), `upload_screen`
  image selection (lines 181-199), `process_images` (lines 108-133) and the
  "NEW SCAN" button (lines 287-289).

Everything below is a character-level shallow embedding of exactly these
functions.  Regular-expression scanning is embedded by a direct translation
of the three concrete regexes: the translation was checked against the
behaviour of Python `re.findall` on the example inputs used in the theorems.
Python `set` iteration order is hash-based and not reproducible, so the
result of `compare_invoice_numbers` is embedded as a relation
(`CompareResult`) whose output list is constrained only up to membership and
duplicate-freeness, exactly the guarantee the code gives.
-/

namespace OCRApp

/-- The apostrophe character, written via its code point. -/
def apos : Char := Char.ofNat 39

/-- Python `\s` / `str.strip` whitespace on ASCII text: space, tab, newline,
carriage return, vertical tab, form feed. -/
def pySpace (c : Char) : Bool :=
  c = ' ' || c = '\t' || c = '\n' || c = '\r' || c = Char.ofNat 11 || c = Char.ofNat 12

/-- app.py line 48: `text.replace(",", ".").replace("'", "").strip()` —
every comma becomes a period, every apostrophe is removed, and whitespace is
trimmed from both ends only. -/
def cleanChars (l : List Char) : List Char :=
  let replaced := (l.map (fun c => if c = ',' then '.' else c)).filter (fun c => c != apos)
  ((replaced.dropWhile pySpace).reverse.dropWhile pySpace).reverse

/-- Python regex word character on ASCII text: letters, digits, underscore. -/
def isWordChar (c : Char) : Bool := c.isAlphanum || c = '_'

/-- Case-insensitive literal match (the regexes are compiled with
`re.IGNORECASE`); the first argument is the lowercase literal, the result is
the remaining text after the literal. -/
def litCI : List Char → List Char → Option (List Char)
  | [], l => some l
  | _ :: _, [] => none
  | p :: ps, c :: cs => if c.toLower = p then litCI ps cs else none

/-- Regex `\s+`: at least one whitespace character, consumed greedily.  All
uses in app.py are followed by a non-whitespace token, so the greedy maximal
run is the unique possible match. -/
def ws1 : List Char → Option (List Char)
  | [] => none
  | c :: cs => if pySpace c then some (cs.dropWhile pySpace) else none

/-- Regex `\s*`: a possibly empty whitespace run, consumed greedily. -/
def wsStar (l : List Char) : List Char := l.dropWhile pySpace

/-- Regex character class `[:.]` — one colon or period. -/
def sepCD : List Char → Option (List Char)
  | [] => none
  | c :: cs => if c = ':' || c = '.' then some cs else none

/-- Regex `[.,]?` — an optional period or comma.  Consuming it can never
make the rest of the regex (`\s*\d...`) fail where skipping would succeed,
so the greedy choice is again deterministic. -/
def optPC : List Char → List Char
  | [] => []
  | c :: cs => if c = '.' || c = ',' then cs else c :: cs

/-- Regex `(\d{13,14})` at the end of every labeled regex of app.py lines
52-54: greedily captures 14 digits, or 13 when only 13 are available; fails
when fewer than 13 digits follow.  There is no boundary after the capture,
so a longer digit run simply has its first 14 digits captured.  Returns the
capture and the remaining text. -/
def matchDigits (l : List Char) : Option (List Char × List Char) :=
  if (l.takeWhile Char.isDigit).length < 13 then none
  else some ((l.takeWhile Char.isDigit).take 14, l.drop ((l.takeWhile Char.isDigit).take 14).length)

/-- Label part of app.py line 52, `Invoice\s+(?:No|Number|Sr\.\s+No)[:.]\s*`.
The three alternatives diverge on their first two characters, so ordered
committed choice agrees with regex backtracking. -/
def labelP1 (l : List Char) : Option (List Char) :=
  (litCI ['i','n','v','o','i','c','e'] l).bind fun l1 =>
    (ws1 l1).bind fun l2 =>
      ((((litCI ['n','o'] l2).bind sepCD) <|>
        ((litCI ['n','u','m','b','e','r'] l2).bind sepCD) <|>
        ((((litCI ['s','r','.'] l2).bind ws1).bind (litCI ['n','o'])).bind sepCD)).map wsStar)

/-- Label part of app.py line 53, `Document\s+No[.,]?\s*`. -/
def labelP2 (l : List Char) : Option (List Char) :=
  (litCI ['d','o','c','u','m','e','n','t'] l).bind fun l1 =>
    (ws1 l1).bind fun l2 =>
      (litCI ['n','o'] l2).map fun l3 => wsStar (optPC l3)

/-- Label part of app.py line 54, `Moglix\s+Invoice\s+Sr\.\s+No[:.]\s*`. -/
def labelP3 (l : List Char) : Option (List Char) :=
  (litCI ['m','o','g','l','i','x'] l).bind fun l1 =>
    (ws1 l1).bind fun l2 =>
      (litCI ['i','n','v','o','i','c','e'] l2).bind fun l3 =>
        (ws1 l3).bind fun l4 =>
          (litCI ['s','r','.'] l4).bind fun l5 =>
            (ws1 l5).bind fun l6 =>
              (litCI ['n','o'] l6).bind fun l7 =>
                (sepCD l7).map wsStar

/-- A match attempt of the first labeled regex at the current position. -/
def matchP1At (l : List Char) : Option (List Char × List Char) := (labelP1 l).bind matchDigits

/-- A match attempt of the second labeled regex at the current position. -/
def matchP2At (l : List Char) : Option (List Char × List Char) := (labelP2 l).bind matchDigits

/-- A match attempt of the third labeled regex at the current position. -/
def matchP3At (l : List Char) : Option (List Char × List Char) := (labelP3 l).bind matchDigits

/-- `re.findall` scanning loop: try a match at every position from left to
right; on success emit the capture and continue after the match
(non-overlapping), otherwise advance one character.  Every successful match
of the regexes used here consumes at least one character, so fuel equal to
the length of the text never runs out. -/
def scanAux (m : List Char → Option (List Char × List Char)) : Nat → List Char → List (List Char)
  | 0, _ => []
  | _ + 1, [] => []
  | fuel + 1, c :: cs =>
    match m (c :: cs) with
    | some (cap, rest) => cap :: scanAux m fuel rest
    | none => scanAux m fuel cs

/-- All captures of one labeled regex over the whole text, in text order. -/
def findAllP (m : List Char → Option (List Char × List Char)) (l : List Char) : List (List Char) :=
  scanAux m l.length l

/-- Regex `\b(\d{13,14})\b` of app.py line 66 at a position whose preceding
character is not a word character: the digit run starting here matches
exactly when its length is 13 or 14 and the character after it (if any) is
not a word character.  A run of 15 or more digits can never match, because
the closing `\b` fails for both the 14- and the 13-digit attempt. -/
def matchSAAt (l : List Char) : Option (List Char × List Char) :=
  if (l.takeWhile Char.isDigit).length = 13 || (l.takeWhile Char.isDigit).length = 14 then
    match l.drop (l.takeWhile Char.isDigit).length with
    | [] => some (l.takeWhile Char.isDigit, [])
    | c :: cs => if isWordChar c then none else some (l.takeWhile Char.isDigit, c :: cs)
  else none

/-- Scanning loop for the standalone regex, tracking whether the previous
character was a word character (the left `\b`). -/
def scanSA : Nat → Bool → List Char → List (List Char)
  | 0, _, _ => []
  | _ + 1, _, [] => []
  | fuel + 1, prevW, c :: cs =>
    if prevW then scanSA fuel (isWordChar c) cs
    else
      match matchSAAt (c :: cs) with
      | some (cap, rest) => cap :: scanSA fuel true rest
      | none => scanSA fuel (isWordChar c) cs

/-- Tier 2 of `extract_invoice_numbers` (app.py lines 63-67): all standalone
13-14 digit runs. -/
def findStandalone (l : List Char) : List (List Char) := scanSA l.length false l

/-- Tier 1 of `extract_invoice_numbers` (app.py lines 57-61): the captures
of the three labeled regexes, concatenated in regex order. -/
def tier1 (l : List Char) : List (List Char) :=
  findAllP matchP1At l ++ findAllP matchP2At l ++ findAllP matchP3At l

/-- Per-candidate normalization (app.py lines 71-77): `num[-13:]` when the
match has more than 13 digits, the match itself otherwise. -/
def processNum (n : List Char) : List Char :=
  if 13 < n.length then n.drop (n.length - 13) else n

/-- The raw match list before normalization: Tier 1, or Tier 2 exactly when
Tier 1 produced nothing (`if not numbers:` on app.py line 64). -/
def rawNumbers (t : List Char) : List (List Char) :=
  if tier1 (cleanChars t) = [] then findStandalone (cleanChars t) else tier1 (cleanChars t)

/-- `extract_invoice_numbers` of app.py lines 38-79, on character lists. -/
def extractCore (t : List Char) : List (List Char) := (rawNumbers t).map processNum

/-- `extract_invoice_numbers` on strings. -/
def extract_invoice_numbers (text : String) : List String :=
  (extractCore text.data).map List.asString

/-- Python `num[-n:]`: the trailing `n` characters (the whole string when it
is shorter than `n`). -/
def lastN (n : Nat) (l : List Char) : List Char := l.drop (l.length - n)

/-- app.py line 96: the fuzzy condition
`len(num1) >= 10 and len(num2) >= 10 and num1[-10:] == num2[-10:]`. -/
def suffixOk (n1 n2 : List Char) : Bool :=
  decide (10 ≤ n1.length) && decide (10 ≤ n2.length) && (lastN 10 n1 == lastN 10 n2)

/-- app.py lines 92-98: `special_matches` collects each `num1` of the first
list for which some `num2` of the second list satisfies the fuzzy condition
(the `break` makes each `num1` occurrence contribute at most once). -/
def special_matches (ns1 ns2 : List (List Char)) : List (List Char) :=
  ns1.filter fun n1 => ns2.any fun n2 => suffixOk n1 n2

/-- app.py line 101: `exact_matches = [num for num in numbers1 if num in numbers2]`. -/
def exact_matches (ns1 ns2 : List (List Char)) : List (List Char) :=
  ns1.filter fun n1 => ns2.contains n1

/-- The concatenation `exact_matches + special_matches` of app.py line 104,
computed from the two texts. -/
def matchPool (t1 t2 : List Char) : List (List Char) :=
  exact_matches (extractCore t1) (extractCore t2) ++
    special_matches (extractCore t1) (extractCore t2)

/-- A list that Python `list(set(pool))` may produce: the members of `pool`
without duplicates, in an order the language does not fix (string hashing is
randomized per process). -/
def SetListing (pool out : List (List Char)) : Prop :=
  out.Nodup ∧ (∀ x ∈ out, x ∈ pool) ∧ (∀ x ∈ pool, x ∈ out)

/-- The value `compare_invoice_numbers(text1, text2)` may return (app.py
lines 104-106): `None` exactly when `exact_matches + special_matches` is
empty, otherwise some hash-set enumeration of it. -/
def CompareResult (t1 t2 : List Char) (r : Option (List (List Char))) : Prop :=
  if matchPool t1 t2 = [] then r = none
  else ∃ out, SetListing (matchPool t1 t2) out ∧ r = some out

/-- The three screens of the app (app.py lines 135, 142, 204). -/
inductive Screen where
  | home
  | upload
  | comparison
deriving DecidableEq, Repr

/-- The Streamlit session state of app.py lines 17-26 plus the two debug
fields attached in `compare_invoice_numbers` (lines 87-88).  Images are
identified by opaque handles. -/
structure Session where
  captured_images : List Nat
  extracted_texts : List (List Char)
  current_screen : Screen
  processing : Bool
  matching_numbers : Option (List (List Char))
  debug_numbers1 : List (List Char)
  debug_numbers2 : List (List Char)
deriving DecidableEq, Repr

/-- `reset_captured_images` of app.py lines 28-32: clears the images, the
extracted texts and the match result — and nothing else. -/
def reset_captured_images (s : Session) : Session :=
  { s with captured_images := [], extracted_texts := [], matching_numbers := none }

/-- `switch_screen` of app.py lines 34-36. -/
def switch_screen (scr : Screen) (s : Session) : Session :=
  { s with current_screen := scr }

/-- The "NEW SCAN" button of app.py lines 287-289: reset, then go home.
The "BACK"/"UPLOAD FROM GALLERY" path of lines 138-140 composes the same
two calls. -/
def new_scan (s : Session) : Session := switch_screen Screen.home (reset_captured_images s)

/-- The image-selection handler of app.py lines 181-194: at most the first
two uploaded files are appended to the held images, and the held list is
then truncated to its first two entries. -/
def upload_select (s : Session) (uploaded : List Nat) : Session :=
  { s with captured_images := (s.captured_images ++ uploaded.take 2).take 2 }

/-- The OCR loop of app.py lines 113-117: each held image is opened and
recognized in order; the first raised exception aborts the loop.  The OCR
engine is the external collaborator, passed in as a function. -/
def ocrRun (ocr : Nat → Except String (List Char)) (imgs : List Nat) :
    Except String (List (List Char)) :=
  imgs.mapM ocr

/-- `process_images` of app.py lines 108-133 as a relation between the
session before and after (a relation because the match list order is not
determined).  On an OCR exception the `except` block of lines 129-131 runs:
the error is displayed, the screen is set to `home`, and the `finally`
block clears `processing` — no other field is touched.  On success the
session receives the extracted texts (line 120); then, when fewer than two
texts exist, the indexing `extracted_texts[1]` of line 124 raises and the
`except` block runs; otherwise `compare_invoice_numbers` stores both
candidate lists in the debug fields feeding the match result, and the
screen becomes `comparison`. -/
def ProcessImages (ocr : Nat → Except String (List Char)) (s s' : Session) : Prop :=
  match ocrRun ocr s.captured_images with
  | Except.error _ => s' = { s with current_screen := Screen.home, processing := false }
  | Except.ok texts =>
    match texts with
    | t1 :: t2 :: _ =>
      ∃ r, CompareResult t1 t2 r ∧
        s' = { s with extracted_texts := texts,
                      debug_numbers1 := extractCore t1,
                      debug_numbers2 := extractCore t2,
                      matching_numbers := r,
                      current_screen := Screen.comparison,
                      processing := false }
    | _ =>
      s' = { s with extracted_texts := texts,
                    current_screen := Screen.home, processing := false }

/-- A fresh session as initialized on app.py lines 17-26, in the upload
screen. -/
def emptySession : Session :=
  { captured_images := [], extracted_texts := [], current_screen := Screen.upload,
    processing := false, matching_numbers := none, debug_numbers1 := [], debug_numbers2 := [] }

/-- A session already holding one image, used to exercise the acquisition
step. -/
def sHeld : Session := { emptySession with captured_images := [9] }

/-- An OCR collaborator that always raises (an unreadable image or a
tesseract failure). -/
def ocrFail : Nat → Except String (List Char) := fun _ => Except.error "decode failed"

/-- A mid-cycle session holding two images and leftover results from an
earlier comparison, about to be processed. -/
def sBusy : Session :=
  { captured_images := [0, 1],
    extracted_texts := ["Invoice No: 9999999999999".data],
    current_screen := Screen.upload,
    processing := true,
    matching_numbers := some ["9999999999999".data],
    debug_numbers1 := ["9999999999999".data],
    debug_numbers2 := ["8888888888888".data] }

/-- A session as left by a finished comparison whose candidate lists are
still stored in the debug fields. -/
def sAfterCompare : Session :=
  { captured_images := [], extracted_texts := [],
    current_screen := Screen.comparison, processing := false,
    matching_numbers := none,
    debug_numbers1 := ["1234567890123".data],
    debug_numbers2 := ["1234567890123".data] }

/-- The identifier 7112600003240 written with apostrophes as digit-group
separators. -/
def aposGrouped : List Char :=
  ['7', apos, '1', '1', '2', apos, '6', '0', '0', apos, '0', '0', '3', apos, '2', '4', '0']

/-- An OCR collaborator returning two texts with disjoint candidate sets. -/
def ocrDisjoint : Nat → Except String (List Char) :=
  fun n => Except.ok (if n = 0 then "1111111111111".data else "2222222222222".data)

/-- A session holding two images, ready for processing. -/
def sReady : Session := { emptySession with captured_images := [0, 1], processing := true }

/-- The session after `process_images` succeeds on `sReady` with
`ocrDisjoint`: both candidate lists are exposed and the match is `None`. -/
def sDone : Session :=
  { sReady with
    extracted_texts := ["1111111111111".data, "2222222222222".data],
    debug_numbers1 := ["1111111111111".data],
    debug_numbers2 := ["2222222222222".data],
    matching_numbers := none,
    current_screen := Screen.comparison,
    processing := false }

/-- Every capture of the digit part of a labeled regex has 13 or 14
characters, all digits. -/
theorem matchDigits_some {l cap rest : List Char} (h : matchDigits l = some (cap, rest)) :
    13 ≤ cap.length ∧ cap.length ≤ 14 ∧ ∀ c ∈ cap, c.isDigit = true := by
  unfold matchDigits at h
  split at h
  · exact absurd h (by simp)
  · rename_i hge
    simp only [Option.some.injEq, Prod.mk.injEq] at h
    obtain ⟨hcap, -⟩ := h
    subst hcap
    refine ⟨?_, ?_, ?_⟩
    · rw [List.length_take]
      omega
    · rw [List.length_take]
      omega
    · intro c hc
      exact List.mem_takeWhile_imp (List.mem_of_mem_take hc)

/-- Every capture of the standalone regex has 13 or 14 characters, all
digits. -/
theorem matchSAAt_some {l cap rest : List Char} (h : matchSAAt l = some (cap, rest)) :
    13 ≤ cap.length ∧ cap.length ≤ 14 ∧ ∀ c ∈ cap, c.isDigit = true := by
  unfold matchSAAt at h
  split at h
  · rename_i hlen
    split at h
    · simp only [Option.some.injEq, Prod.mk.injEq] at h
      obtain ⟨hcap, -⟩ := h
      subst hcap
      rcases Bool.or_eq_true_iff.mp hlen with h13 | h13 <;>
        simp only [decide_eq_true_eq] at h13 <;>
        exact ⟨by omega, by omega, fun c hc => List.mem_takeWhile_imp hc⟩
    · split at h
      · exact absurd h (by simp)
      · simp only [Option.some.injEq, Prod.mk.injEq] at h
        obtain ⟨hcap, -⟩ := h
        subst hcap
        rcases Bool.or_eq_true_iff.mp hlen with h13 | h13 <;>
          simp only [decide_eq_true_eq] at h13 <;>
          exact ⟨by omega, by omega, fun c hc => List.mem_takeWhile_imp hc⟩
  · exact absurd h (by simp)

/-- Every capture emitted by the scanning loop comes from a successful
match attempt. -/
theorem scanAux_mem {m : List Char → Option (List Char × List Char)} :
    ∀ {fuel : Nat} {l cap : List Char}, cap ∈ scanAux m fuel l →
      ∃ l0 rest, m l0 = some (cap, rest) := by
  intro fuel
  induction fuel with
  | zero => intro l cap h; simp [scanAux] at h
  | succ n ih =>
    intro l cap h
    match l with
    | [] => simp [scanAux] at h
    | c :: cs =>
      rw [scanAux] at h
      cases hm : m (c :: cs) with
      | none =>
        rw [hm] at h
        exact ih h
      | some pr =>
        obtain ⟨cap0, rest⟩ := pr
        rw [hm] at h
        rcases List.mem_cons.mp h with h1 | h2
        · exact ⟨c :: cs, rest, by rw [hm, h1]⟩
        · exact ih h2

/-- Every capture emitted by the standalone scanning loop comes from a
successful standalone match attempt. -/
theorem scanSA_mem :
    ∀ {fuel : Nat} {prevW : Bool} {l cap : List Char}, cap ∈ scanSA fuel prevW l →
      ∃ l0 rest, matchSAAt l0 = some (cap, rest) := by
  intro fuel
  induction fuel with
  | zero => intro prevW l cap h; simp [scanSA] at h
  | succ n ih =>
    intro prevW l cap h
    match l with
    | [] => simp [scanSA] at h
    | c :: cs =>
      rw [scanSA] at h
      by_cases hp : prevW
      · rw [if_pos hp] at h
        exact ih h
      · rw [if_neg hp] at h
        cases hm : matchSAAt (c :: cs) with
        | none =>
          rw [hm] at h
          exact ih h
        | some pr =>
          obtain ⟨cap0, rest⟩ := pr
          rw [hm] at h
          rcases List.mem_cons.mp h with h1 | h2
          · exact ⟨c :: cs, rest, by rw [hm, h1]⟩
          · exact ih h2

/-- Every Tier-1 capture has 13 or 14 characters, all digits. -/
theorem tier1_mem {s cap : List Char} (h : cap ∈ tier1 s) :
    13 ≤ cap.length ∧ cap.length ≤ 14 ∧ ∀ c ∈ cap, c.isDigit = true := by
  unfold tier1 findAllP at h
  rcases List.mem_append.mp h with h' | h'
  · rcases List.mem_append.mp h' with h'' | h''
    · obtain ⟨l0, rest, hm⟩ := scanAux_mem h''
      unfold matchP1At at hm
      cases hl : labelP1 l0 with
      | none => rw [hl] at hm; exact absurd hm (by simp)
      | some l1 => rw [hl] at hm; exact matchDigits_some hm
    · obtain ⟨l0, rest, hm⟩ := scanAux_mem h''
      unfold matchP2At at hm
      cases hl : labelP2 l0 with
      | none => rw [hl] at hm; exact absurd hm (by simp)
      | some l1 => rw [hl] at hm; exact matchDigits_some hm
  · obtain ⟨l0, rest, hm⟩ := scanAux_mem h'
    unfold matchP3At at hm
    cases hl : labelP3 l0 with
    | none => rw [hl] at hm; exact absurd hm (by simp)
    | some l1 => rw [hl] at hm; exact matchDigits_some hm

/-- Every Tier-2 capture has 13 or 14 characters, all digits. -/
theorem standalone_mem {s cap : List Char} (h : cap ∈ findStandalone s) :
    13 ≤ cap.length ∧ cap.length ≤ 14 ∧ ∀ c ∈ cap, c.isDigit = true := by
  obtain ⟨l0, rest, hm⟩ := scanSA_mem h
  exact matchSAAt_some hm

/-- Normalizing a 13-14 digit match yields exactly 13 characters, all
digits. -/
theorem processNum_spec {n : List Char} (h13 : 13 ≤ n.length) (h14 : n.length ≤ 14)
    (hd : ∀ c ∈ n, c.isDigit = true) :
    (processNum n).length = 13 ∧ ∀ c ∈ processNum n, c.isDigit = true := by
  unfold processNum
  by_cases h : 13 < n.length
  · rw [if_pos h]
    refine ⟨?_, ?_⟩
    · rw [List.length_drop]
      omega
    · intro c hc
      exact hd c (List.mem_of_mem_drop hc)
  · rw [if_neg h]
    exact ⟨by omega, hd⟩

/-- Every candidate produced by the extractor has exactly 13 characters,
all digits. -/
theorem extractCore_mem {t c : List Char} (h : c ∈ extractCore t) :
    c.length = 13 ∧ ∀ ch ∈ c, ch.isDigit = true := by
  unfold extractCore at h
  obtain ⟨n, hn, rfl⟩ := List.mem_map.mp h
  unfold rawNumbers at hn
  split at hn
  · obtain ⟨h13, h14, hd⟩ := standalone_mem hn
    exact processNum_spec h13 h14 hd
  · obtain ⟨h13, h14, hd⟩ := tier1_mem hn
    exact processNum_spec h13 h14 hd

/-- C2: extraction is tiered with strict precedence — whenever the labeled
Tier-1 scan yields at least one candidate, the extractor returns exactly
the normalized Tier-1 candidates, so the Tier-2 standalone scan contributes
nothing; in particular `extract_invoice_numbers "Invoice No: 7112600003240"`
returns exactly `["7112600003240"]`. -/
theorem tier1_priority :
    (∀ t : List Char, tier1 (cleanChars t) ≠ [] →
      extractCore t = (tier1 (cleanChars t)).map processNum) ∧
    extract_invoice_numbers "Invoice No: 7112600003240" = ["7112600003240"] := by
  constructor
  · intro t h
    unfold extractCore rawNumbers
    rw [if_neg h]
  · decide

/-- C2 witness: the Tier-1 precedence theorem applied to the concrete
labeled text. -/
theorem tier1_priority_witness :
    extractCore "Invoice No: 7112600003240".data =
      (tier1 (cleanChars "Invoice No: 7112600003240".data)).map processNum :=
  tier1_priority.1 "Invoice No: 7112600003240".data (by decide)

/-- C7: per-candidate normalization truncates every match longer than 13
digits to its trailing 13 digits and leaves matches of at most 13 digits
unchanged; in particular `"74126000033240"` normalizes to
`"4126000033240"`. -/
theorem truncation_policy :
    (∀ n : List Char, (13 < n.length → processNum n = lastN 13 n) ∧
      (n.length ≤ 13 → processNum n = n)) ∧
    processNum "74126000033240".data = "4126000033240".data := by
  refine ⟨fun n => ⟨fun h => ?_, fun h => ?_⟩, by decide⟩
  · unfold processNum lastN
    rw [if_pos h]
  · unfold processNum
    rw [if_neg (by omega)]

/-- C7 witness: the truncation theorem applied to a 14-digit and a 13-digit
match. -/
theorem truncation_policy_witness :
    processNum "12345678901234".data = lastN 13 "12345678901234".data ∧
    processNum "1234567890123".data = "1234567890123".data :=
  ⟨(truncation_policy.1 "12345678901234".data).1 (by decide),
   (truncation_policy.1 "1234567890123".data).2 (by decide)⟩

/-- C10: every candidate string returned by the extractor consists only of
digit characters and has length exactly 13, hence satisfies the length
precondition (at least 10) of the fuzzy suffix policy. -/
theorem extract_digits_len13 :
    ∀ (t c : String), c ∈ extract_invoice_numbers t →
      c.length = 13 ∧ (∀ ch ∈ c.data, ch.isDigit = true) ∧ 10 ≤ c.length := by
  intro t c h
  unfold extract_invoice_numbers at h
  obtain ⟨l, hl, rfl⟩ := List.mem_map.mp h
  obtain ⟨hlen, hd⟩ := extractCore_mem hl
  have h10 : 10 ≤ l.length := by omega
  exact ⟨hlen, hd, h10⟩

/-- C10 witness: the candidate-shape theorem applied to a concrete
extraction. -/
theorem extract_digits_len13_witness :
    ("7112600033240" : String).length = 13 ∧
    (∀ ch ∈ ("7112600033240" : String).data, ch.isDigit = true) ∧
    10 ≤ ("7112600033240" : String).length :=
  extract_digits_len13 "Invoice No: 7112600033240" "7112600033240" (by decide)

/-- C8: after an image-selection event the session holds at most 2 images;
the retained images are the first 2 in overall arrival order (so a 3-image
upload into an empty session retains exactly the first 2, and the excess is
not held, hence never processed); images already held stay at the front
rather than being replaced. -/
theorem upload_select_spec :
    (∀ (s : Session) (uploaded : List Nat),
      (upload_select s uploaded).captured_images.length ≤ 2 ∧
      (upload_select s uploaded).captured_images = (s.captured_images ++ uploaded).take 2 ∧
      (s.captured_images.length ≤ 2 →
        (upload_select s uploaded).captured_images.take s.captured_images.length
          = s.captured_images)) ∧
    (upload_select emptySession [5, 6, 7]).captured_images = [5, 6] := by
  refine ⟨fun s uploaded => ⟨?_, ?_, fun h => ?_⟩, by decide⟩
  · show ((s.captured_images ++ uploaded.take 2).take 2).length ≤ 2
    rw [List.length_take]
    exact min_le_left _ _
  · show (s.captured_images ++ uploaded.take 2).take 2 = (s.captured_images ++ uploaded).take 2
    rw [List.take_append_eq_append_take, List.take_append_eq_append_take, List.take_take]
    rw [Nat.min_eq_left (by omega : 2 - s.captured_images.length ≤ 2)]
  · show ((s.captured_images ++ uploaded.take 2).take 2).take s.captured_images.length
        = s.captured_images
    rw [List.take_take, Nat.min_eq_left h, List.take_append_eq_append_take, Nat.sub_self,
      List.take_zero, List.append_nil, List.take_length]

/-- C8 witness: the acquisition theorem applied to a session already
holding one image that receives a 3-image upload. -/
theorem upload_select_spec_witness :
    (upload_select sHeld [5, 6, 7]).captured_images.length ≤ 2 ∧
    (upload_select sHeld [5, 6, 7]).captured_images = (sHeld.captured_images ++ [5, 6, 7]).take 2 ∧
    (upload_select sHeld [5, 6, 7]).captured_images.take sHeld.captured_images.length
      = sHeld.captured_images :=
  ⟨(upload_select_spec.1 sHeld [5, 6, 7]).1,
   (upload_select_spec.1 sHeld [5, 6, 7]).2.1,
   (upload_select_spec.1 sHeld [5, 6, 7]).2.2 (by decide)⟩

/-- C1 counterexample: when OCR fails, `process_images` runs its `except`
block (app.py lines 129-131), which only surfaces the message and switches
to home; the session is NOT reset — the captured images, the stale match
result and the stale candidate lists all remain in the session after the
failing transition. -/
theorem process_failure_state_remains :
    ProcessImages ocrFail sBusy
      { sBusy with current_screen := Screen.home, processing := false } ∧
    ({ sBusy with current_screen := Screen.home, processing := false } : Session).captured_images
      ≠ [] ∧
    ({ sBusy with current_screen := Screen.home, processing := false } : Session).matching_numbers
      ≠ none ∧
    ({ sBusy with current_screen := Screen.home, processing := false } : Session).debug_numbers1
      ≠ [] := by
  refine ⟨?_, by decide, by decide, by decide⟩
  show ProcessImages ocrFail sBusy _
  unfold ProcessImages
  exact rfl

/-- C1 (amended): every failure during the processing step is caught, a
message is surfaced, the workflow returns to home and the processing flag
is cleared — but the session is not reset: the captured images, previously
stored extracted texts, match result and candidate lists persist unchanged
(they are cleared only when the user starts the next cycle from home). -/
theorem process_failure_no_reset :
    ∀ (ocr : Nat → Except String (List Char)) (s s' : Session),
      (∃ e, ocrRun ocr s.captured_images = Except.error e) →
      ProcessImages ocr s s' →
      s'.current_screen = Screen.home ∧ s'.processing = false ∧
      s'.captured_images = s.captured_images ∧
      s'.extracted_texts = s.extracted_texts ∧
      s'.matching_numbers = s.matching_numbers ∧
      s'.debug_numbers1 = s.debug_numbers1 ∧
      s'.debug_numbers2 = s.debug_numbers2 := by
  intro ocr s s' he hp
  obtain ⟨e, he⟩ := he
  unfold ProcessImages at hp
  rw [he] at hp
  have hp' : s' = { s with current_screen := Screen.home, processing := false } := hp
  subst hp'
  exact ⟨rfl, rfl, rfl, rfl, rfl, rfl, rfl⟩

/-- C1 witness: the failure-transition theorem applied to the concrete
failing OCR run on `sBusy`. -/
theorem process_failure_no_reset_witness :
    ({ sBusy with current_screen := Screen.home, processing := false } : Session).current_screen
      = Screen.home ∧
    ({ sBusy with current_screen := Screen.home, processing := false } : Session).processing
      = false ∧
    ({ sBusy with current_screen := Screen.home, processing := false } : Session).captured_images
      = sBusy.captured_images ∧
    ({ sBusy with current_screen := Screen.home, processing := false } : Session).extracted_texts
      = sBusy.extracted_texts ∧
    ({ sBusy with current_screen := Screen.home, processing := false } : Session).matching_numbers
      = sBusy.matching_numbers ∧
    ({ sBusy with current_screen := Screen.home, processing := false } : Session).debug_numbers1
      = sBusy.debug_numbers1 ∧
    ({ sBusy with current_screen := Screen.home, processing := false } : Session).debug_numbers2
      = sBusy.debug_numbers2 :=
  process_failure_no_reset ocrFail sBusy _ ⟨"decode failed", rfl⟩
    (by unfold ProcessImages; exact rfl)

/-- C9 counterexample: after a "NEW SCAN" reset the per-document candidate
lists of the previous cycle are still stored in `debug_numbers1/2` —
`reset_captured_images` (app.py lines 28-32) never clears them. -/
theorem new_scan_debug_remains :
    (new_scan sAfterCompare).debug_numbers1 = ["1234567890123".data] ∧
    (new_scan sAfterCompare).debug_numbers1 ≠ [] ∧
    (new_scan sAfterCompare).debug_numbers2 ≠ [] := by
  exact ⟨rfl, by decide, by decide⟩

/-- C9 (amended): a user-initiated "new scan" reset clears the captured
images, the extracted texts and the match result and returns to home, but
the per-document candidate (debug) lists are not cleared and remain visible
in the session until the next comparison overwrites them. -/
theorem new_scan_resets_most :
    ∀ s : Session,
      (new_scan s).captured_images = [] ∧
      (new_scan s).extracted_texts = [] ∧
      (new_scan s).matching_numbers = none ∧
      (new_scan s).current_screen = Screen.home ∧
      (new_scan s).debug_numbers1 = s.debug_numbers1 ∧
      (new_scan s).debug_numbers2 = s.debug_numbers2 :=
  fun _ => ⟨rfl, rfl, rfl, rfl, rfl, rfl⟩

/-- C3 counterexample: the candidates `"7112600033240"` and
`"74126000033240"` are NOT declared matching by the suffix policy of app.py
line 96: their trailing 10 digits are `"2600033240"` and `"6000033240"`,
which differ; accordingly the fuzzy pass collects nothing for the pair, and
the full pipeline on two labeled texts carrying exactly these numbers
produces an empty match pool (so `compare_invoice_numbers` returns `None`),
contradicting the comment on app.py lines 90-91 that this case is
handled. -/
theorem suffix_pair_not_matched :
    suffixOk "7112600033240".data "74126000033240".data = false ∧
    special_matches ["7112600033240".data] ["74126000033240".data] = [] ∧
    lastN 10 "7112600033240".data = "2600033240".data ∧
    lastN 10 "74126000033240".data = "6000033240".data ∧
    matchPool "Invoice No: 7112600033240".data "Invoice No: 74126000033240".data = [] := by
  decide

/-- C3 (amended): for every pair of candidates of length at least 10 whose
trailing 10-digit suffixes are identical, the list-1 value is declared a
match even when the full strings differ; the particular pair
`"7112600033240"` / `"74126000033240"` is however not matched by this
policy, since only their trailing 8 digits agree. -/
theorem suffix_policy :
    (∀ (ns1 ns2 : List (List Char)) (n1 n2 : List Char),
      n1 ∈ ns1 → n2 ∈ ns2 → 10 ≤ n1.length → 10 ≤ n2.length →
      lastN 10 n1 = lastN 10 n2 → n1 ∈ special_matches ns1 ns2) ∧
    lastN 8 "7112600033240".data = lastN 8 "74126000033240".data := by
  constructor
  · intro ns1 ns2 n1 n2 h1 h2 hl1 hl2 hs
    unfold special_matches
    rw [List.mem_filter]
    refine ⟨h1, ?_⟩
    rw [List.any_eq_true]
    refine ⟨n2, h2, ?_⟩
    unfold suffixOk
    rw [Bool.and_eq_true, Bool.and_eq_true]
    exact ⟨⟨by simpa using hl1, by simpa using hl2⟩, by simpa using hs⟩
  · decide

/-- C3 witness: the suffix-policy theorem applied to a pair that does share
its trailing 10 digits. -/
theorem suffix_policy_witness :
    "7112600033240".data ∈
      special_matches ["7112600033240".data] ["0002600033240".data] :=
  suffix_policy.1 ["7112600033240".data] ["0002600033240".data]
    "7112600033240".data "0002600033240".data
    (by decide) (by decide) (by decide) (by decide) (by decide)

/-- C4 counterexample: a label followed by a 15-digit run IS captured by
Tier 1 — the labeled regexes of app.py lines 52-54 have no boundary after
the digit group, so the first 14 digits of the run are captured (and later
truncated to 13), contrary to the claim that Tier 1 extracts nothing from
a run longer than 14 digits. -/
theorem tier1_overlong_run_captured :
    tier1 (cleanChars "Invoice No: 123456789012345".data) = ["12345678901234".data] ∧
    extract_invoice_numbers "Invoice No: 123456789012345" = ["2345678901234"] := by
  decide

/-- C4 (amended): a label followed by a digit run shorter than 13 digits
produces no Tier-1 candidate (every Tier-1 capture has 13 to 14
characters); a run longer than 14 digits, however, does produce a Tier-1
candidate consisting of its first 14 digits; only the Tier-2 standalone
scan rejects over-long runs through its word boundaries, and it runs only
when Tier 1 found nothing at all. -/
theorem tier1_length_window :
    (∀ (s cap : List Char), cap ∈ tier1 s → 13 ≤ cap.length ∧ cap.length ≤ 14) ∧
    extract_invoice_numbers "Invoice No: 123456789012" = [] ∧
    findStandalone (cleanChars "x 123456789012345 y".data) = [] := by
  refine ⟨fun s cap h => ⟨(tier1_mem h).1, (tier1_mem h).2.1⟩, by decide, by decide⟩

/-- C4 witness: the length-window theorem applied to a concrete Tier-1
capture. -/
theorem tier1_length_window_witness :
    13 ≤ ("1234567890123".data).length ∧ ("1234567890123".data).length ≤ 14 :=
  tier1_length_window.1 (cleanChars "Invoice No: 1234567890123".data)
    "1234567890123".data (by decide)

/-- C5 counterexample: the normalization pass does not strip commas — it
replaces them with periods (app.py line 48) — so a comma-grouped 13-digit
identifier is NOT reassembled: extraction returns the empty list. -/
theorem comma_grouped_not_reassembled :
    extract_invoice_numbers "7,112,600,003,240" = [] ∧
    cleanChars "7,112,600,003,240".data = "7.112.600.003.240".data := by
  decide

/-- C5 (amended): the normalization pass removes apostrophes, replaces each
comma with a period, and trims whitespace only at the two ends of the text;
hyphens and interior whitespace are left in place.  Hence an
apostrophe-grouped identifier is reassembled and returned, while comma- or
hyphen-grouped identifiers are not; labeled-pattern matching on ordinary
text still works after trimming. -/
theorem normalization_behavior :
    cleanChars aposGrouped = "7112600003240".data ∧
    extractCore aposGrouped = ["7112600003240".data] ∧
    extract_invoice_numbers "7-112-600-003-240" = [] ∧
    cleanChars "  Invoice No: 1234567890123  ".data = "Invoice No: 1234567890123".data ∧
    extract_invoice_numbers "  Invoice No: 1234567890123  " = ["1234567890123"] := by
  decide

/-- C6 counterexample: the match list is materialized through a Python
hash set (`list(set(...))`, app.py line 104), whose iteration order is not
insertion order and is hash-randomized per process — so "first-found order
preserved" is false: on a two-match comparison both orders of the same
de-duplicated union are admissible return values of
`compare_invoice_numbers`, and they cannot both equal the first-found
enumeration. -/
theorem compare_order_unspecified :
    CompareResult "1111111111111 2222222222222".data "1111111111111 2222222222222".data
      (some ["1111111111111".data, "2222222222222".data]) ∧
    CompareResult "1111111111111 2222222222222".data "1111111111111 2222222222222".data
      (some ["2222222222222".data, "1111111111111".data]) ∧
    (["2222222222222".data, "1111111111111".data] : List (List Char)) ≠
      ["1111111111111".data, "2222222222222".data] := by
  refine ⟨?_, ?_, by decide⟩
  · unfold CompareResult
    rw [if_neg (by decide)]
    exact ⟨["1111111111111".data, "2222222222222".data], ⟨by decide, by decide, by decide⟩, rfl⟩
  · unfold CompareResult
    rw [if_neg (by decide)]
    exact ⟨["2222222222222".data, "1111111111111".data], ⟨by decide, by decide, by decide⟩, rfl⟩

/-- C6 (amended): the matcher returns `None` exactly when no candidate
matches under the exact policy or the fuzzy suffix policy (in particular
for the disjoint lists `["1111111111111"]` vs `["2222222222222"]`);
otherwise it returns the de-duplicated union of exact and fuzzy matches in
an order the code does not determine (a hash-set enumeration; first-found
order is not guaranteed); and after a successful processing run the full
per-document candidate lists are exposed in the debug fields regardless of
the match outcome. -/
theorem compare_result_spec :
    (∀ (t1 t2 : List Char) (r : Option (List (List Char))),
      CompareResult t1 t2 r →
        ((r = none ↔ (exact_matches (extractCore t1) (extractCore t2) = [] ∧
                      special_matches (extractCore t1) (extractCore t2) = [])) ∧
         (∀ out, r = some out →
            out.Nodup ∧ (∀ x ∈ out, x ∈ matchPool t1 t2) ∧
            (∀ x ∈ matchPool t1 t2, x ∈ out)))) ∧
    CompareResult "1111111111111".data "2222222222222".data none ∧
    (∀ (ocr : Nat → Except String (List Char)) (s s' : Session) (t1 t2 : List Char)
        (rest : List (List Char)),
      ocrRun ocr s.captured_images = Except.ok (t1 :: t2 :: rest) →
      ProcessImages ocr s s' →
      s'.debug_numbers1 = extractCore t1 ∧ s'.debug_numbers2 = extractCore t2) := by
  refine ⟨?_, ?_, ?_⟩
  · intro t1 t2 r h
    unfold CompareResult at h
    by_cases hp : matchPool t1 t2 = []
    · rw [if_pos hp] at h
      subst h
      refine ⟨⟨fun _ => List.append_eq_nil.mp hp, fun _ => rfl⟩, ?_⟩
      intro out hout
      exact absurd hout (by simp)
    · rw [if_neg hp] at h
      obtain ⟨out, hset, hr⟩ := h
      subst hr
      constructor
      · constructor
        · intro h'
          exact absurd h' (by simp)
        · intro hes
          obtain ⟨he, hs⟩ := hes
          have hpool : matchPool t1 t2 = [] := by
            unfold matchPool
            rw [he, hs]
            rfl
          exact absurd hpool hp
      · intro out' hout'
        have hoo : out = out' := by
          injection hout'
        subst hoo
        exact hset
  · unfold CompareResult
    rw [if_pos (by decide)]
  · intro ocr s s' t1 t2 rest hok hp
    unfold ProcessImages at hp
    rw [hok] at hp
    have hp' : ∃ r, CompareResult t1 t2 r ∧
        s' = { s with extracted_texts := t1 :: t2 :: rest,
                      debug_numbers1 := extractCore t1,
                      debug_numbers2 := extractCore t2,
                      matching_numbers := r,
                      current_screen := Screen.comparison,
                      processing := false } := hp
    obtain ⟨r, -, hs'⟩ := hp'
    subst hs'
    exact ⟨rfl, rfl⟩

/-- C6 witness: the matcher theorem applied to the concrete disjoint
no-match pair, and the diagnostics part applied to a concrete successful
processing run. -/
theorem compare_result_spec_witness :
    ((none = (none : Option (List (List Char))) ↔
      (exact_matches (extractCore "1111111111111".data) (extractCore "2222222222222".data) = [] ∧
       special_matches (extractCore "1111111111111".data) (extractCore "2222222222222".data)
         = [])) ∧
     (∀ out, (none : Option (List (List Char))) = some out →
        out.Nodup ∧
        (∀ x ∈ out, x ∈ matchPool "1111111111111".data "2222222222222".data) ∧
        (∀ x ∈ matchPool "1111111111111".data "2222222222222".data, x ∈ out))) ∧
    (sDone.debug_numbers1 = extractCore "1111111111111".data ∧
     sDone.debug_numbers2 = extractCore "2222222222222".data) :=
  ⟨compare_result_spec.1 "1111111111111".data "2222222222222".data none
      (by unfold CompareResult; rw [if_pos (by decide)]),
   compare_result_spec.2.2 ocrDisjoint sReady sDone "1111111111111".data "2222222222222".data []
      rfl
      (by unfold ProcessImages
          exact ⟨none, by unfold CompareResult; rw [if_pos (by decide)], by decide⟩)⟩

end OCRApp
